import Mathlib

/-!
Verification of the kauka-dev front-end bundle.

Shallow embedding of the JavaScript sources `src/js/home-bundle.js`,
`src/js/agenda-bundle.js` and `src/js/utils/debug.js`.  Pure functions are
translated to Lean functions; DOM/event-driven code is translated to explicit
state passing, with the ambient browser state (viewport width, presence of DOM
elements, presence of third-party libraries) passed as parameters.
-/

namespace Kauka

/-! ## Breakpoint resolver (home-bundle.js, getBreakpoint) -/

/-- Embedding of `getBreakpoint` (home-bundle.js lines 10-17).  `window.innerWidth`
is passed explicitly as `innerWidth`. -/
def getBreakpoint (innerWidth : Nat) : String :=
  if 1536 ≤ innerWidth then "2xl"
  else if 1280 ≤ innerWidth then "xl"
  else if 1024 ≤ innerWidth then "lg"
  else if 768 ≤ innerWidth then "md"
  else if 640 ≤ innerWidth then "sm"
  else "all"

/-- Rank of a breakpoint label in the order all < sm < md < lg < xl < 2xl,
used to state monotonicity of `getBreakpoint`. -/
def breakpointRank : String → Nat
  | "sm" => 1
  | "md" => 2
  | "lg" => 3
  | "xl" => 4
  | "2xl" => 5
  | _ => 0

/-! ## JavaScript value helpers -/

/-- Truthiness of a JavaScript string: the empty string is falsy, every other
string is truthy. -/
def jsTruthy (s : String) : Bool := !s.isEmpty

/-- JavaScript `x || y` where `x` is a possibly-absent (`undefined`) string
property and `y` is a string: returns `x` when it is present and truthy,
otherwise `y`. -/
def jsOrString (x : Option String) (y : String) : String :=
  match x with
  | some s => if jsTruthy s then s else y
  | none => y

/-- A JavaScript value as far as an `img.src` assignment is concerned:
either `undefined` or a string. -/
inductive JsValue where
  | undef : JsValue
  | str : String → JsValue
deriving DecidableEq

/-! ## Responsive image resolver (home-bundle.js, getResponsiveImageUrl) -/

/-- The `original` sub-object of an artist image record. -/
structure OriginalImage where
  src : String

/-- An artist image record: a map from breakpoint label to responsive URL
(`imagen.responsive[bp]`, absent keys modelled as `none`) plus the
`original` fallback object. -/
structure Imagen where
  responsive : String → Option String
  original : OriginalImage

/-- Embedding of `getResponsiveImageUrl` (home-bundle.js lines 77-80):
`imagen.responsive[bp] || imagen.original.src` with `bp = getBreakpoint()`. -/
def getResponsiveImageUrl (innerWidth : Nat) (imagen : Imagen) : String :=
  let bp := getBreakpoint innerWidth
  jsOrString (imagen.responsive bp) imagen.original.src

/-! ## Random hero image (home-bundle.js, getRandomElement / getRandomImage) -/

/-- Embedding of `getRandomElement` (home-bundle.js lines 29-35).  The random
draw `Math.floor(Math.random() * array.length)` is passed in as `randomIndex`;
the JS code guarantees `randomIndex < array.length` whenever the array is
non-empty, and returns `null` (here `none`) on an empty array. -/
def getRandomElement {α : Type} (array : List α) (randomIndex : Nat) : Option α :=
  if array.length = 0 then none
  else array.get? randomIndex

/-- A hero image set from `KAUKA_CONFIG.componenteUno/Dos/Tres`: breakpoint
label to URL (`randomImageSet[bp]`), plus an original URL that
`getRandomImage` never reads. -/
structure HeroImageSet where
  entries : String → Option String
  originalSrc : String

/-- Embedding of `getRandomImage` (home-bundle.js lines 58-70).  Returns the
value assigned to the img element's `src`, or `none` when no assignment
happens (empty list or missing img element). -/
def getRandomImage (imageList : List HeroImageSet) (randomIndex : Nat)
    (innerWidth : Nat) (imgElExists : Bool) : Option JsValue :=
  match getRandomElement imageList randomIndex with
  | none => none
  | some randomImageSet =>
    let bp := getBreakpoint innerWidth
    if imgElExists then
      some (match randomImageSet.entries bp with
            | some u => JsValue.str u
            | none => JsValue.undef)
    else none

/-! ## Concrete records used as witnesses / counterexamples -/

/-- An image record whose "sm" entry is present but is the empty string. -/
def exImagenEmptyEntry : Imagen :=
  { responsive := fun bp => if bp = "sm" then some "" else none
  , original := { src := "original.jpg" } }

/-- An image record with only an "md" entry. -/
def exImagenMd : Imagen :=
  { responsive := fun bp => if bp = "md" then some "md.jpg" else none
  , original := { src := "fallback.jpg" } }

/-- A hero image set with no "md" entry but a (never-read) original URL. -/
def exHeroSetNoMd : HeroImageSet :=
  { entries := fun bp => if bp = "sm" then some "sm.jpg" else none
  , originalSrc := "hero-original.jpg" }

/-! ## Slideshow component (home-bundle.js, initializeSlideshow) -/

/-- JavaScript `%` on integers is truncated modulo (`Int.tmod`). -/
def jsMod (a b : Int) : Int := a.tmod b

/-- Embedding of `nextSlide` (home-bundle.js lines 569-572):
`currentSlide = (currentSlide + 1) % totalSlides`. -/
def nextSlide (totalSlides : Nat) (currentSlide : Int) : Int :=
  jsMod (currentSlide + 1) totalSlides

/-- Embedding of `prevSlide` (home-bundle.js lines 574-577):
`currentSlide = (currentSlide - 1 + totalSlides) % totalSlides`. -/
def prevSlide (totalSlides : Nat) (currentSlide : Int) : Int :=
  jsMod (currentSlide - 1 + totalSlides) totalSlides

/-- A navigation call on the slideshow. -/
inductive SlideOp where
  | next : SlideOp
  | prev : SlideOp

/-- Apply one navigation call to the current slide index. -/
def applySlideOp (totalSlides : Nat) (i : Int) : SlideOp → Int
  | .next => nextSlide totalSlides i
  | .prev => prevSlide totalSlides i

/-- Run a sequence of navigation calls from the initial index 0
(`let currentSlide = 0` in initializeSlideshow). -/
def runSlideOps (totalSlides : Nat) (ops : List SlideOp) : Int :=
  ops.foldl (applySlideOp totalSlides) 0

/-- Handler-attachment outcome of `initializeSlideshow`
(home-bundle.js lines 518-680). -/
structure SlideshowInit where
  nextHandlerAttached : Bool
  prevHandlerAttached : Bool
deriving DecidableEq

/-- Embedding of the control flow of `initializeSlideshow`: when
`totalSlides <= 1` the function returns before attaching any navigation
handlers; otherwise it attaches a click handler to each arrow that exists. -/
def initializeSlideshow (totalSlides : Nat)
    (nextBtnExists prevBtnExists : Bool) : SlideshowInit :=
  if totalSlides ≤ 1 then
    { nextHandlerAttached := false, prevHandlerAttached := false }
  else
    { nextHandlerAttached := nextBtnExists, prevHandlerAttached := prevBtnExists }

/-- Navigation-relevant outcome of `renderArtistGallery`
(home-bundle.js lines 463-511): the inline style attribute injected into each
arrow element and the handler state of the subsequent `initializeSlideshow`
call (both arrows are present in the injected markup). -/
structure GalleryRender where
  slideCount : Nat
  prevArrowStyle : String
  nextArrowStyle : String
  init : SlideshowInit

/-- Embedding of `renderArtistGallery`: shows at most `maxImages` images
(`artist.imagenes.slice(0, maxImages)`), injects `display:none;` into the
arrow styles when at most one slide is shown, and initializes the slideshow. -/
def renderArtistGallery (imagenes : List Imagen) (maxImages : Nat) : GalleryRender :=
  let imagesToShow := imagenes.take maxImages
  let hideFragment := if imagesToShow.length ≤ 1 then "display:none;" else ""
  { slideCount := imagesToShow.length
  , prevArrowStyle := "pointer-events: auto !important; " ++ hideFragment
  , nextArrowStyle := "pointer-events: auto !important; " ++ hideFragment
  , init := initializeSlideshow imagesToShow.length true true }

/-! ## Remote content fetchers (home-bundle.js, fetchProgramaCuratorial and
fetchArtists) -/

/-- Outcome of the HTTP request underlying a `fetch` call: transport failure
(the fetch promise rejects), or a response with its `ok` flag, status code,
and the result of `response.json()` (`none` = JSON parse failure). -/
inductive FetchOutcome (α : Type) where
  | transportError : FetchOutcome α
  | response (ok : Bool) (status : Nat) (jsonBody : Option α) : FetchOutcome α

/-- The settled state of the promise a fetcher returns to its caller. -/
inductive PromiseResult (α : Type) where
  | resolved (value : α) : PromiseResult α
  | rejected : PromiseResult α

/-- The promise chain both fetchers build before the final `.catch`: a
non-`ok` response throws `HTTP error! status: ...`; a `response.json()`
failure rejects; otherwise the parsed data flows through (the conditional
debug log in the second `.then` does not change the value). -/
def fetchChain {α : Type} (o : FetchOutcome (List α)) : Except String (List α) :=
  match o with
  | .transportError => .error "TypeError: Failed to fetch"
  | .response ok status jsonBody =>
    if !ok then .error ("HTTP error! status: " ++ toString status)
    else
      match jsonBody with
      | none => .error "SyntaxError: Unexpected token"
      | some data => .ok data

/-- Embedding of `fetchProgramaCuratorial` (home-bundle.js lines 92-108): the
trailing `.catch` logs the error and returns `[]`, so every failure settles
as a promise resolved with the empty array. -/
def fetchProgramaCuratorial {α : Type} (o : FetchOutcome (List α)) :
    PromiseResult (List α) :=
  match fetchChain o with
  | .ok data => .resolved data
  | .error _ => .resolved []

/-- Embedding of `fetchArtists` (home-bundle.js lines 115-132); identical
chain and failure policy, different endpoint and log text. -/
def fetchArtists {α : Type} (o : FetchOutcome (List α)) :
    PromiseResult (List α) :=
  match fetchChain o with
  | .ok data => .resolved data
  | .error _ => .resolved []

/-- The failure outcomes enumerated by the spec: non-2xx HTTP status
(`ok = false`), transport failure, or JSON parse failure. -/
def fetchFailed {α : Type} (o : FetchOutcome (List α)) : Bool :=
  match o with
  | .transportError => true
  | .response ok _ jsonBody => !ok || jsonBody.isNone

/-! ## Debug logger (utils/debug.js, debugLog) and home-page logging -/

/-- The runtime configuration object `window.KAUKA_CONFIG` as seen by the
code under verification: the `debug` field may be absent or hold a boolean,
and `componenteUno` may or may not be present (truthy). -/
structure KaukaConfig where
  debug : Option Bool
  componenteUnoPresent : Bool

/-- Embedding of `debugLog` (utils/debug.js lines 13-25).  Returns whether a
console method is invoked: output happens iff `window` is defined,
`KAUKA_CONFIG` is present with `debug === true`, and the requested console
method exists. -/
def debugLog (windowDefined : Bool) (config : Option KaukaConfig)
    (consoleLevelIsFunction : Bool) : Bool :=
  windowDefined &&
    (match config with
     | some c => c.debug == some true
     | none => false) &&
    consoleLevelIsFunction

/-- The ambient environment `initHomePage` runs in: the configuration object
and the `typeof f === "function"` checks it performs. -/
structure HomeEnv where
  config : Option KaukaConfig
  getRandomImageDefined : Bool
  initHomeHorizontalScrollDefined : Bool
  fetchArtistsDefined : Bool
  positionSectionBackgroundDefined : Bool
  initProjectShowcaseDefined : Bool

/-- Embedding of the console messages emitted directly by `initHomePage`
(home-bundle.js lines 917-1001), in order.  Messages emitted by the
components it calls (and by asynchronous fetch callbacks) are additional
output on top of this list.  The first `console.log` (line 918) is
unconditional and in particular independent of `KAUKA_CONFIG.debug`. -/
def initHomePageConsole (env : HomeEnv) : List String :=
  ["[Home] Initializing home page functionality"] ++
  (if env.config.elim false (·.componenteUnoPresent) then
    ["[Home] Populating dynamic background images"] ++
    (if env.getRandomImageDefined then ["[Home] Dynamic images populated"]
     else ["[Home] getRandomImage function not available"])
   else ["[Home] Image configuration not available in KAUKA_CONFIG"]) ++
  (if env.initHomeHorizontalScrollDefined then []
   else ["[Home] initHomeHorizontalScroll function not available"]) ++
  (if env.fetchArtistsDefined then []
   else ["[Home] fetchArtists function not available"]) ++
  (if env.positionSectionBackgroundDefined then
    ["[Home] Background positioning initialized with resize handler"]
   else ["[Home] positionSectionBackground function not available"]) ++
  (if env.initProjectShowcaseDefined then []
   else ["[Home] initProjectShowcase function not available"]) ++
  ["[Home] Home page initialization complete"]

/-- A fully-populated environment whose config has `debug: false`. -/
def exEnvDebugFalse : HomeEnv :=
  { config := some { debug := some false, componenteUnoPresent := true }
  , getRandomImageDefined := true
  , initHomeHorizontalScrollDefined := true
  , fetchArtistsDefined := true
  , positionSectionBackgroundDefined := true
  , initProjectShowcaseDefined := true }

/-! ## Horizontal scroll controller (home-bundle.js, initHorizontalScroll and
initHomeHorizontalScroll) -/

/-- The handle returned by a successful `initHorizontalScroll` call (it
bundles the scroll tween, the ScrollTrigger and a kill method; only its
presence matters here). -/
inductive ScrollHandle where
  | mk : ScrollHandle
deriving DecidableEq

/-- Presence of the libraries and DOM elements `initHorizontalScroll`
checks, in the order it checks them. -/
structure ScrollLibs where
  gsapDefined : Bool
  scrollTriggerDefined : Bool
  containerExists : Bool
  scrollableElementExists : Bool

/-- Embedding of `initHorizontalScroll` (home-bundle.js lines 693-838):
returns `null` when the width is ≥ 768 (`shouldDisableHorizontalScroll`),
when GSAP or ScrollTrigger is undefined, or when the trigger container or
the scrollable element is missing; otherwise builds and returns a handle. -/
def initHorizontalScroll (innerWidth : Nat) (libs : ScrollLibs) :
    Option ScrollHandle :=
  if 768 ≤ innerWidth then none
  else if !libs.gsapDefined then none
  else if !libs.scrollTriggerDefined then none
  else if !libs.containerExists then none
  else if !libs.scrollableElementExists then none
  else some ScrollHandle.mk

/-- A handle operation performed by one resize step of the controller. -/
inductive ScrollAction where
  | created : ScrollAction
  | killed : ScrollAction
deriving DecidableEq

/-- Embedding of `handleHorizontalScroll` (home-bundle.js lines 856-891) as
one settled (post-debounce) step: given the viewport width and the stored
`horizontalScroll` handle, returns the new handle together with the handle
operations that occurred.  `kill` is called only in the first branch (which
requires a non-null handle) and a handle is created only in the second
branch (which requires a null handle). -/
def handleHorizontalScroll (innerWidth : Nat) (libs : ScrollLibs)
    (horizontalScroll : Option ScrollHandle) :
    Option ScrollHandle × List ScrollAction :=
  let shouldDisable := 768 ≤ innerWidth
  if shouldDisable ∧ horizontalScroll ≠ none then
    (none, [ScrollAction.killed])
  else if ¬shouldDisable ∧ horizontalScroll = none then
    match initHorizontalScroll innerWidth libs with
    | some h => (some h, [ScrollAction.created])
    | none => (none, [])
  else (horizontalScroll, [])

/-- All libraries and DOM elements present. -/
def allScrollLibs : ScrollLibs :=
  { gsapDefined := true, scrollTriggerDefined := true
  , containerExists := true, scrollableElementExists := true }

/-! ## Calendar title formatter (agenda-bundle.js, updateTitle) -/

/-- A calendar date as the formatter consumes it (a Luxon DateTime obtained
via `fromJSDate(...)`, `setLocale("es")`). -/
structure CalDate where
  year : Nat
  month : Nat
  day : Nat

/-- Month names produced by Luxon `toFormat("LLLL")` under the "es" locale
(modelled from Luxon's documented Spanish localization; Luxon is a
third-party library, not part of this repository's sources). -/
def spanishMonthName : Nat → String
  | 1 => "enero"
  | 2 => "febrero"
  | 3 => "marzo"
  | 4 => "abril"
  | 5 => "mayo"
  | 6 => "junio"
  | 7 => "julio"
  | 8 => "agosto"
  | 9 => "septiembre"
  | 10 => "octubre"
  | 11 => "noviembre"
  | 12 => "diciembre"
  | _ => ""

/-- Luxon `startDate.hasSame(endDate, "month")`: true when the two dates lie
in the same month of the same year (higher-order units are compared too). -/
def hasSameMonth (a b : CalDate) : Bool :=
  a.year == b.year && a.month == b.month

/-- Luxon `toFormat("d")`: the unpadded day number. -/
def formatDay (d : CalDate) : String := toString d.day

/-- The title markup built for the listWeek view (agenda-bundle.js lines
115-123), with the template literal's whitespace reproduced exactly. -/
def listWeekTitle (startDate endDate : CalDate) : String :=
  if hasSameMonth startDate endDate then
    "\n            <div class=\"agenda-days\">" ++ formatDay startDate ++
      " - " ++ formatDay endDate ++ "</div>  \n            <div class=\"agenda-month\">" ++
      spanishMonthName startDate.month ++ "</div>"
  else
    "\n            <div class=\"agenda-days\">" ++ formatDay startDate ++
      " de " ++ spanishMonthName startDate.month ++ " - " ++ formatDay endDate ++
      " de " ++ spanishMonthName endDate.month ++ "</div>"

/-- The title markup built for the listMonth view (agenda-bundle.js lines
142-143). -/
def listMonthTitle (currentDate : CalDate) : String :=
  "\n            <div class=\"agenda-month\">" ++
    spanishMonthName currentDate.month ++ "</div>"

/-- Embedding of `updateTitle` (agenda-bundle.js lines 85-148): given whether
the title element exists, the view type, and the view's `currentStart` and
`currentEnd`, returns the innerHTML written to the title element, or `none`
when nothing is written (missing element, or a view type with no custom
title). -/
def updateTitle (titleElExists : Bool) (viewType : String)
    (currentStart currentEnd : CalDate) : Option String :=
  if titleElExists then
    if viewType == "listWeek" then
      some (listWeekTitle currentStart currentEnd)
    else if viewType == "listMonth" then
      some (listMonthTitle currentStart)
    else none
  else none

/-! # Theorems -/

/-- C5: `getBreakpoint` implements the fixed threshold table
(2xl ≥ 1536, xl ≥ 1280, lg ≥ 1024, md ≥ 768, sm ≥ 640, else all), is
monotonic non-decreasing in the width with respect to the order
all < sm < md < lg < xl < 2xl, and takes the stated values at 639, 640
and 1536. -/
theorem getBreakpoint_threshold_monotone :
    (∀ w, 1536 ≤ w → getBreakpoint w = "2xl") ∧
    (∀ w, 1280 ≤ w → w < 1536 → getBreakpoint w = "xl") ∧
    (∀ w, 1024 ≤ w → w < 1280 → getBreakpoint w = "lg") ∧
    (∀ w, 768 ≤ w → w < 1024 → getBreakpoint w = "md") ∧
    (∀ w, 640 ≤ w → w < 768 → getBreakpoint w = "sm") ∧
    (∀ w, w < 640 → getBreakpoint w = "all") ∧
    (∀ w₁ w₂, w₁ ≤ w₂ →
      breakpointRank (getBreakpoint w₁) ≤ breakpointRank (getBreakpoint w₂)) ∧
    getBreakpoint 639 = "all" ∧ getBreakpoint 640 = "sm" ∧
    getBreakpoint 1536 = "2xl" := by
  refine ⟨?_, ?_, ?_, ?_, ?_, ?_, ?_, by decide, by decide, by decide⟩
  · intro w h; unfold getBreakpoint; split_ifs <;> first | rfl | omega
  · intro w h h2; unfold getBreakpoint; split_ifs <;> first | rfl | omega
  · intro w h h2; unfold getBreakpoint; split_ifs <;> first | rfl | omega
  · intro w h h2; unfold getBreakpoint; split_ifs <;> first | rfl | omega
  · intro w h h2; unfold getBreakpoint; split_ifs <;> first | rfl | omega
  · intro w h; unfold getBreakpoint; split_ifs <;> first | rfl | omega
  · intro w₁ w₂ h
    unfold getBreakpoint
    split_ifs <;> simp [breakpointRank] <;> omega

/-- Witness for C5 at concrete widths. -/
theorem getBreakpoint_threshold_monotone_witness :
    getBreakpoint 1600 = "2xl" ∧
    breakpointRank (getBreakpoint 700) ≤ breakpointRank (getBreakpoint 800) :=
  ⟨getBreakpoint_threshold_monotone.1 1600 (by decide),
   getBreakpoint_threshold_monotone.2.2.2.2.2.2.1 700 800 (by decide)⟩

/-- C6 counterexample: at viewport width 640 the breakpoint is "sm" and the
record `exImagenEmptyEntry` has a *present* "sm" entry (the empty string),
yet `getResponsiveImageUrl` does not return that entry: JavaScript `||`
treats the empty string as falsy and falls back to `original.src`. -/
theorem getResponsiveImageUrl_present_entry_not_returned :
    exImagenEmptyEntry.responsive (getBreakpoint 640) = some "" ∧
    getResponsiveImageUrl 640 exImagenEmptyEntry = "original.jpg" ∧
    ("original.jpg" : String) ≠ "" := by
  refine ⟨rfl, rfl, by decide⟩

/-- C6 (amended): `getResponsiveImageUrl` returns `record.responsive[bp]` when
that entry is present and non-empty (truthy); when the entry is absent, or
present but the empty string, it falls back to `record.original.src`.  The
function is total, so absence never raises an error. -/
theorem getResponsiveImageUrl_fallback (w : Nat) (imagen : Imagen) :
    (∀ u, imagen.responsive (getBreakpoint w) = some u → u ≠ "" →
      getResponsiveImageUrl w imagen = u) ∧
    (imagen.responsive (getBreakpoint w) = none →
      getResponsiveImageUrl w imagen = imagen.original.src) ∧
    (imagen.responsive (getBreakpoint w) = some "" →
      getResponsiveImageUrl w imagen = imagen.original.src) := by
  refine ⟨?_, ?_, ?_⟩
  · intro u hu hne
    simp [getResponsiveImageUrl, jsOrString, jsTruthy, hu, String.isEmpty_iff, hne]
  · intro h
    simp [getResponsiveImageUrl, jsOrString, h]
  · intro h
    simp [getResponsiveImageUrl, jsOrString, jsTruthy, h]
    intro hc
    exact absurd hc (by decide)

/-- Witness for C6's amended theorem: the "md" entry is returned at width 800,
and a record with no entry at the current breakpoint falls back. -/
theorem getResponsiveImageUrl_fallback_witness :
    getResponsiveImageUrl 800 exImagenMd = "md.jpg" ∧
    getResponsiveImageUrl 640 exImagenMd = "fallback.jpg" :=
  ⟨(getResponsiveImageUrl_fallback 800 exImagenMd).1 "md.jpg" rfl (by decide),
   (getResponsiveImageUrl_fallback 640 exImagenMd).2.1 rfl⟩

/-- C10: `getRandomImage` assigns the chosen record's entry for the current
breakpoint directly to the img `src`: when the entry is present it assigns
that URL, and when it is absent it assigns `undefined`, with no fallback to
the record's original URL — unlike `getResponsiveImageUrl`, which does fall
back to `original.src` when the entry is absent. -/
theorem getRandomImage_no_fallback (imageList : List HeroImageSet)
    (randomIndex w : Nat) (set : HeroImageSet)
    (hget : imageList.get? randomIndex = some set) :
    (∀ u, set.entries (getBreakpoint w) = some u →
      getRandomImage imageList randomIndex w true = some (JsValue.str u)) ∧
    (set.entries (getBreakpoint w) = none →
      getRandomImage imageList randomIndex w true = some JsValue.undef) ∧
    (∀ imagen : Imagen, imagen.responsive (getBreakpoint w) = none →
      getResponsiveImageUrl w imagen = imagen.original.src) := by
  have hne : imageList.length ≠ 0 := by
    intro hlen
    rw [List.length_eq_zero] at hlen
    subst hlen
    simp at hget
  refine ⟨?_, ?_, ?_⟩
  · intro u hu
    unfold getRandomImage getRandomElement
    rw [if_neg hne, hget]
    simp [hu]
  · intro hu
    unfold getRandomImage getRandomElement
    rw [if_neg hne, hget]
    simp [hu]
  · intro imagen h
    simp [getResponsiveImageUrl, jsOrString, h]

/-- Witness for C10: a one-element hero pool whose record has no "md" entry at
width 800 gets `undefined` assigned to the img src. -/
theorem getRandomImage_no_fallback_witness :
    getRandomImage [exHeroSetNoMd] 0 800 true = some JsValue.undef :=
  (getRandomImage_no_fallback [exHeroSetNoMd] 0 800 exHeroSetNoMd rfl).2.1 rfl

/-- Helper: on an in-range index the truncated JS modulo agrees with the
mathematical (Euclidean) modulo for both navigation steps. -/
theorem slide_step_emod (N : Nat) (hN : 2 ≤ N) (i : Int)
    (h0 : 0 ≤ i) (hi : i < N) :
    nextSlide N i = (i + 1) % N ∧ prevSlide N i = (i - 1) % N := by
  have hN' : (2 : Int) ≤ N := by exact_mod_cast hN
  constructor
  · unfold nextSlide jsMod
    rw [Int.tmod_eq_emod (by omega) (by omega)]
  · unfold prevSlide jsMod
    rw [Int.tmod_eq_emod (by omega) (by omega)]
    have h1 : i - 1 + (N : Int) = i - 1 + (N : Int) * 1 := by ring
    rw [h1, Int.add_mul_emod_self_left]

/-- Helper: iterating `nextSlide` from 0 counts modulo N. -/
theorem iterate_nextSlide (N : Nat) (hN : 2 ≤ N) :
    ∀ k : Nat, k ≤ N → (nextSlide N)^[k] (0 : Int) = (k : Int) % N := by
  have hN' : (2 : Int) ≤ N := by exact_mod_cast hN
  intro k
  induction k with
  | zero => intro _; simp
  | succ k ih =>
    intro hk
    rw [Function.iterate_succ_apply', ih (Nat.le_of_succ_le hk)]
    have hklt : (k : Int) < N := by exact_mod_cast Nat.lt_of_succ_le hk
    have hkmod : (k : Int) % N = k := Int.emod_eq_of_lt (by positivity) hklt
    rw [hkmod]
    unfold nextSlide jsMod
    rw [Int.tmod_eq_emod (by omega) (by omega)]
    push_cast
    ring_nf

/-- C3: for a slideshow with N ≥ 2 slides, `nextSlide` advances the in-range
index by +1 modulo N and `prevSlide` by -1 modulo N; consequently N
consecutive `nextSlide` calls from index 0 return to 0, and one `prevSlide`
call from index 0 yields N - 1. -/
theorem slideshow_next_prev (N : Nat) (hN : 2 ≤ N) :
    (∀ i : Int, 0 ≤ i → i < N → nextSlide N i = (i + 1) % N) ∧
    (∀ i : Int, 0 ≤ i → i < N → prevSlide N i = (i - 1) % N) ∧
    (nextSlide N)^[N] (0 : Int) = 0 ∧
    prevSlide N 0 = (N : Int) - 1 := by
  have hN' : (2 : Int) ≤ N := by exact_mod_cast hN
  refine ⟨fun i h0 hi => (slide_step_emod N hN i h0 hi).1,
         fun i h0 hi => (slide_step_emod N hN i h0 hi).2, ?_, ?_⟩
  · rw [iterate_nextSlide N hN N le_rfl, Int.emod_self]
  · unfold prevSlide jsMod
    have h1 : (0 : Int) - 1 + N = N - 1 := by ring
    rw [h1, Int.tmod_eq_of_lt (by omega) (by omega)]

/-- Witness for C3 at N = 3: three `nextSlide` calls return to 0 and one
`prevSlide` from 0 yields 2. -/
theorem slideshow_next_prev_witness :
    (nextSlide 3)^[3] (0 : Int) = 0 ∧ prevSlide 3 0 = (3 : Int) - 1 :=
  ⟨(slideshow_next_prev 3 (by decide)).2.2.1,
   (slideshow_next_prev 3 (by decide)).2.2.2⟩

/-- C4: starting from index 0, after any sequence of `nextSlide` and
`prevSlide` calls on a slideshow with N ≥ 2 slides the current index is an
integer in [0, N). -/
theorem slideshow_index_invariant (N : Nat) (hN : 2 ≤ N) (ops : List SlideOp) :
    0 ≤ runSlideOps N ops ∧ runSlideOps N ops < N := by
  have hN' : (2 : Int) ≤ N := by exact_mod_cast hN
  have step : ∀ (i : Int) (op : SlideOp), 0 ≤ i → i < N →
      0 ≤ applySlideOp N i op ∧ applySlideOp N i op < N := by
    intro i op h0 hi
    cases op with
    | next =>
      simp only [applySlideOp, nextSlide, jsMod]
      exact ⟨Int.tmod_nonneg _ (by omega), Int.tmod_lt_of_pos _ (by omega)⟩
    | prev =>
      simp only [applySlideOp, prevSlide, jsMod]
      exact ⟨Int.tmod_nonneg _ (by omega), Int.tmod_lt_of_pos _ (by omega)⟩
  suffices h : ∀ i : Int, 0 ≤ i → i < N →
      0 ≤ ops.foldl (applySlideOp N) i ∧ ops.foldl (applySlideOp N) i < N by
    exact h 0 le_rfl (by omega)
  induction ops with
  | nil => intro i h0 hi; simpa using ⟨h0, hi⟩
  | cons op rest ih =>
    intro i h0 hi
    rw [List.foldl_cons]
    exact ih _ (step i op h0 hi).1 (step i op h0 hi).2

/-- Witness for C4: a concrete call sequence on a 2-slide show stays in
[0, 2). -/
theorem slideshow_index_invariant_witness :
    0 ≤ runSlideOps 2 [SlideOp.prev, SlideOp.next, SlideOp.prev] ∧
    runSlideOps 2 [SlideOp.prev, SlideOp.next, SlideOp.prev] < 2 :=
  slideshow_index_invariant 2 (by decide) [SlideOp.prev, SlideOp.next, SlideOp.prev]

/-- C8: when at most one slide is shown, the gallery renders both navigation
arrows with `display:none;` in their style attribute, and
`initializeSlideshow` returns before attaching any navigation handlers. -/
theorem gallery_single_slide_nav_disabled (imagenes : List Imagen)
    (maxImages : Nat) (h : (imagenes.take maxImages).length ≤ 1) :
    (renderArtistGallery imagenes maxImages).prevArrowStyle =
      "pointer-events: auto !important; display:none;" ∧
    (renderArtistGallery imagenes maxImages).nextArrowStyle =
      "pointer-events: auto !important; display:none;" ∧
    (renderArtistGallery imagenes maxImages).init.nextHandlerAttached = false ∧
    (renderArtistGallery imagenes maxImages).init.prevHandlerAttached = false := by
  simp only [renderArtistGallery, initializeSlideshow, h, if_true]
  exact ⟨rfl, rfl, trivial, trivial⟩

/-- Witness for C8: a one-image artist gallery hides the arrows and attaches
no handlers. -/
theorem gallery_single_slide_nav_disabled_witness :
    (renderArtistGallery [exImagenMd] 6).init.nextHandlerAttached = false :=
  (gallery_single_slide_nav_disabled [exImagenMd] 6 (by decide)).2.2.1

/-- C2: for every outcome of the underlying HTTP request, both fetchers
settle as a resolved promise (they never reject or throw to the caller), and
on any of the enumerated failures — transport failure, non-2xx status, JSON
parse failure — the resolved value is the empty array. -/
theorem fetchers_never_reject {α : Type} (o : FetchOutcome (List α)) :
    (∃ v, fetchProgramaCuratorial o = PromiseResult.resolved v) ∧
    (∃ v, fetchArtists o = PromiseResult.resolved v) ∧
    (fetchFailed o = true →
      fetchProgramaCuratorial o = PromiseResult.resolved [] ∧
      fetchArtists o = PromiseResult.resolved []) := by
  cases o with
  | transportError =>
    exact ⟨⟨[], rfl⟩, ⟨[], rfl⟩, fun _ => ⟨rfl, rfl⟩⟩
  | response ok status jsonBody =>
    cases ok with
    | false => exact ⟨⟨[], rfl⟩, ⟨[], rfl⟩, fun _ => ⟨rfl, rfl⟩⟩
    | true =>
      cases jsonBody with
      | none => exact ⟨⟨[], rfl⟩, ⟨[], rfl⟩, fun _ => ⟨rfl, rfl⟩⟩
      | some data =>
        refine ⟨⟨data, rfl⟩, ⟨data, rfl⟩, fun hfail => ?_⟩
        simp [fetchFailed] at hfail

/-- Witness for C2: a 404 response resolves both fetchers with `[]`. -/
theorem fetchers_never_reject_witness :
    fetchProgramaCuratorial
        (FetchOutcome.response false 404 none : FetchOutcome (List Nat)) =
      PromiseResult.resolved [] ∧
    fetchArtists
        (FetchOutcome.response false 404 none : FetchOutcome (List Nat)) =
      PromiseResult.resolved [] :=
  (fetchers_never_reject
    (FetchOutcome.response false 404 none : FetchOutcome (List Nat))).2.2 rfl

/-- C9 counterexample: with a fully-present configuration whose `debug` flag
is `false`, `initHomePage` still emits console output — its first
`console.log` (home-bundle.js line 918) is unconditional — so it is not the
case that console output is produced only when the debug flag is true. -/
theorem initHomePage_logs_with_debug_false :
    (exEnvDebugFalse.config.map (fun c => c.debug)) = some (some false) ∧
    initHomePageConsole exEnvDebugFalse ≠ [] ∧
    (initHomePageConsole exEnvDebugFalse).head? =
      some "[Home] Initializing home page functionality" := by
  refine ⟨rfl, ?_, rfl⟩
  decide

/-- C9 (amended): logging through the debug utility `debugLog` is gated by
the configuration flag: output is emitted only when `KAUKA_CONFIG` is present
with `debug === true`, and when the flag is `false` or absent `debugLog`
emits nothing.  Direct `console` calls elsewhere (e.g. `initHomePage`) are
not gated by this flag. -/
theorem debugLog_gated (w : Bool) (config : Option KaukaConfig) (c : Bool) :
    (debugLog w config c = true →
      ∃ cfg, config = some cfg ∧ cfg.debug = some true) ∧
    (∀ cfg, config = some cfg → cfg.debug ≠ some true →
      debugLog w config c = false) ∧
    (config = none → debugLog w config c = false) := by
  refine ⟨?_, ?_, ?_⟩
  · intro h
    cases config with
    | none => simp [debugLog] at h
    | some cfg =>
      refine ⟨cfg, rfl, ?_⟩
      simp [debugLog] at h
      exact h.1.2
  · intro cfg hc hne
    subst hc
    simp [debugLog, hne]
  · intro hc
    subst hc
    simp [debugLog]

/-- Witness for C9's amended theorem: with `debug: false` present, `debugLog`
emits nothing even when `window` and the console method exist. -/
theorem debugLog_gated_witness :
    debugLog true (some { debug := some false, componenteUnoPresent := true })
      true = false :=
  (debugLog_gated true
      (some { debug := some false, componenteUnoPresent := true }) true).2.1
    { debug := some false, componenteUnoPresent := true } rfl (by decide)

/-- C7: with the animation engine and both DOM elements present, after each
settled resize step the scroll handle is non-null iff the width is < 768;
the transition 1000 → 500 makes the handle non-null and 500 → 1000 makes it
null; a handle is created only when none is stored, and kill happens only on
a stored handle. -/
theorem horizontalScroll_state_machine (libs : ScrollLibs)
    (hg : libs.gsapDefined = true) (hst : libs.scrollTriggerDefined = true)
    (hc : libs.containerExists = true)
    (hs : libs.scrollableElementExists = true) :
    (∀ (w : Nat) (h : Option ScrollHandle),
      (handleHorizontalScroll w libs h).1 ≠ none ↔ w < 768) ∧
    (handleHorizontalScroll 500 libs
      (handleHorizontalScroll 1000 libs (some ScrollHandle.mk)).1).1 ≠ none ∧
    (handleHorizontalScroll 1000 libs
      (handleHorizontalScroll 500 libs none).1).1 = none ∧
    (∀ (w : Nat) (libsA : ScrollLibs) (h : Option ScrollHandle),
      ScrollAction.created ∈ (handleHorizontalScroll w libsA h).2 → h = none) ∧
    (∀ (w : Nat) (libsA : ScrollLibs) (h : Option ScrollHandle),
      ScrollAction.killed ∈ (handleHorizontalScroll w libsA h).2 → h ≠ none) := by
  have key : ∀ (w : Nat) (h : Option ScrollHandle),
      (handleHorizontalScroll w libs h).1 ≠ none ↔ w < 768 := by
    intro w h
    by_cases hw : 768 ≤ w
    · cases h <;>
        simp [handleHorizontalScroll, initHorizontalScroll, hw] <;> omega
    · cases h <;>
        simp [handleHorizontalScroll, initHorizontalScroll, hw, hg, hst, hc, hs] <;>
        omega
  refine ⟨key, ?_, ?_, ?_, ?_⟩
  · exact (key 500 _).mpr (by omega)
  · by_contra hne
    have := (key 1000 (handleHorizontalScroll 500 libs none).1).mp hne
    omega
  · intro w libsA h hmem
    by_cases hw : 768 ≤ w <;> cases h <;>
      simp [handleHorizontalScroll, hw] at hmem ⊢ <;>
      first
        | rfl
        | (cases hinit : initHorizontalScroll w libsA <;> simp [hinit] at hmem)
  · intro w libsA h hmem
    by_cases hw : 768 ≤ w <;> cases h <;>
      simp [handleHorizontalScroll, hw] at hmem ⊢ <;>
      first
        | simp
        | (cases hinit : initHorizontalScroll w libsA <;> simp [hinit] at hmem)

/-- Witness for C7: a step at width 500 with everything present yields a
live handle. -/
theorem horizontalScroll_state_machine_witness :
    (handleHorizontalScroll 500 allScrollLibs none).1 ≠ none :=
  ((horizontalScroll_state_machine allScrollLibs rfl rfl rfl rfl).1
    500 none).mpr (by decide)

/-- C1: for a listWeek view whose title element exists, `updateTitle` writes
the same-month markup ("{startDay} - {endDay}" over the Spanish month name)
when start and end lie in the same month, and otherwise the
"{startDay} de {startMonth} - {endDay} de {endMonth}" markup; in particular
May 5 - May 11 renders "5 - 11" over "mayo" and Apr 28 - May 4 renders
"28 de abril - 4 de mayo". -/
theorem updateTitle_listWeek (s e : CalDate) :
    (hasSameMonth s e = true →
      updateTitle true "listWeek" s e =
        some ("\n            <div class=\"agenda-days\">" ++ toString s.day ++
          " - " ++ toString e.day ++
          "</div>  \n            <div class=\"agenda-month\">" ++
          spanishMonthName s.month ++ "</div>")) ∧
    (hasSameMonth s e = false →
      updateTitle true "listWeek" s e =
        some ("\n            <div class=\"agenda-days\">" ++ toString s.day ++
          " de " ++ spanishMonthName s.month ++ " - " ++ toString e.day ++
          " de " ++ spanishMonthName e.month ++ "</div>")) ∧
    updateTitle true "listWeek" ⟨2025, 5, 5⟩ ⟨2025, 5, 11⟩ =
      some ("\n            <div class=\"agenda-days\">5 - 11</div>  " ++
        "\n            <div class=\"agenda-month\">mayo</div>") ∧
    updateTitle true "listWeek" ⟨2025, 4, 28⟩ ⟨2025, 5, 4⟩ =
      some ("\n            <div class=\"agenda-days\">" ++
        "28 de abril - 4 de mayo</div>") := by
  refine ⟨?_, ?_, by decide, by decide⟩
  · intro h
    simp [updateTitle, listWeekTitle, formatDay, h]
  · intro h
    simp [updateTitle, listWeekTitle, formatDay, h]

/-- Witness for C1 at the same-month week May 5 - May 11 2025. -/
theorem updateTitle_listWeek_witness :
    updateTitle true "listWeek" ⟨2025, 5, 5⟩ ⟨2025, 5, 11⟩ =
      some ("\n            <div class=\"agenda-days\">" ++ toString (5 : Nat) ++
        " - " ++ toString (11 : Nat) ++
        "</div>  \n            <div class=\"agenda-month\">" ++
        spanishMonthName 5 ++ "</div>") :=
  (updateTitle_listWeek ⟨2025, 5, 5⟩ ⟨2025, 5, 11⟩).1 rfl

end Kauka
